import Mathlib

/-!
# Verification of `scayle/common-go` (package `common`)

A shallow embedding of `consul.go` and `hostname.go` in Lean 4, with
theorems about the consul service-registration builder, its options,
the environment-backed port resolvers and the random service query.

Modelling conventions:
* The process environment is a total function `Env : String → String`;
  `os.Getenv` returns `""` for an unset variable, so this captures
  exactly what the Go code can observe.
* A Go `panic` / `log.Fatalf` inside the modelled pure computation is an
  `Except.error` carrying the panic message.
* `Hostname()` (which reads `os.Hostname()` and is fatal on error) is
  modelled by passing the hostname value as an explicit argument.
* Network effects (`connect()`, `consul.Agent().ServiceRegister`,
  `consul.Health().Service`, the health-check webserver and
  `http.HandleFunc`) are outside the pure model: the theorems are about
  the registration value that is built and returned, and the discovery
  result list is passed as an argument.
-/

namespace Common

/-- The process environment as seen through `os.Getenv`: unset variables
read as the empty string. -/
def Env : Type := String → String

/-- Whitespace as decided by Go's `unicode.IsSpace` (the Unicode
White_Space property), used by `strings.TrimSpace`. -/
def goIsSpace (c : Char) : Bool :=
  c.toNat = 0x20 || (0x9 ≤ c.toNat && c.toNat ≤ 0xD) ||
  c.toNat = 0x85 || c.toNat = 0xA0 || c.toNat = 0x1680 ||
  (0x2000 ≤ c.toNat && c.toNat ≤ 0x200A) ||
  c.toNat = 0x2028 || c.toNat = 0x2029 || c.toNat = 0x202F ||
  c.toNat = 0x205F || c.toNat = 0x3000

/-- A decimal digit `'0'..'9'`, as in Go's `strconv` parsing loop. -/
def goIsDigit (c : Char) : Bool :=
  48 ≤ c.toNat && c.toNat ≤ 57

/-- Go's `strings.TrimSpace`: remove leading and trailing whitespace. -/
def goTrimSpace (s : String) : String :=
  String.mk (((s.data.dropWhile goIsSpace).reverse.dropWhile goIsSpace).reverse)

/-- The digit run of `strconv.Atoi`: at least one character, all decimal
digits, valued in base 10; anything else is a parse error. -/
def parseDigits (l : List Char) : Option Nat :=
  if l = [] then none
  else if l.all goIsDigit then
    some (l.foldl (fun acc c => acc * 10 + (c.toNat - 48)) 0)
  else none

/-- Character-list core of `strconv.Atoi`: an optional sign followed by
a non-empty run of decimal digits; no whitespace, no other characters.
`Atoi` is `ParseInt(s, 10, 0)`, whose bit size 0 resolves to the 64-bit
platform `int`, so a numeral beyond `[-2^63, 2^63 - 1]` is an
`ErrRange` failure, modelled as `none` like the syntax errors. -/
def atoiAux : List Char → Option Int
  | [] => none
  | c :: rest =>
    if c = '+' then
      match parseDigits rest with
      | some n => if n ≤ 9223372036854775807 then some (n : Int) else none
      | none => none
    else if c = '-' then
      match parseDigits rest with
      | some n => if n ≤ 9223372036854775808 then some (-(n : Int)) else none
      | none => none
    else
      match parseDigits (c :: rest) with
      | some n => if n ≤ 9223372036854775807 then some (n : Int) else none
      | none => none

/-- Go's `strconv.Atoi` on the string's characters. -/
def atoi (s : String) : Option Int :=
  atoiAux s.data

/-- `port` from `consul.go`: resolve the service port from
`PRODUCT_SERVICE_PORT`, falling back to `defaultPort` when the variable
is blank, and panicking on a malformed value. -/
def port (e : Env) (defaultPort : Int) : Except String Int :=
  let p := e "PRODUCT_SERVICE_PORT"
  if (goTrimSpace p).length = 0 then Except.ok defaultPort
  else
    match atoi p with
    | some n => Except.ok n
    | none =>
      Except.error "invalid format for the environment variable PRODUCT_SERVICE_PORT"

/-- `healthPort` from `consul.go`: resolve the health-check port from
`PRODUCT_HEALTH_PORT`, falling back to `defaultPort` when the variable
is blank, and panicking on a malformed value. -/
def healthPort (e : Env) (defaultPort : Int) : Except String Int :=
  let p := e "PRODUCT_HEALTH_PORT"
  if (goTrimSpace p).length = 0 then Except.ok defaultPort
  else
    match atoi p with
    | some n => Except.ok n
    | none =>
      Except.error "invalid format for the environment variable PRODUCT_HEALTH_PORT"

/-- The fields of `api.AgentServiceCheck` that `consul.go` sets. -/
structure AgentServiceCheck where
  HTTP : String
  Interval : String
  Timeout : String
deriving Repr, DecidableEq

/-- The fields of `api.AgentServiceRegistration` that `consul.go` sets;
`Check` is `none` for Go's nil pointer. -/
structure AgentServiceRegistration where
  ID : String
  Name : String
  Address : String
  Port : Int
  Check : Option AgentServiceCheck
deriving Repr, DecidableEq

/-- A registration modifier, `func(*api.AgentServiceRegistration)` in Go.
It reads the environment (the health-check modifier calls `healthPort`)
and may panic, hence the `Except`. -/
def Modifier : Type :=
  Env → AgentServiceRegistration → Except String AgentServiceRegistration

/-- The `config` struct of `consul.go`. -/
structure config where
  defaultPort : Int
  registrationModifiers : List Modifier

/-- The `Option` functional-option type of `consul.go` (named `Opt` here
because `Option` is taken by Lean's core type). -/
def Opt : Type := config → config

/-- `WithDefaultPort` from `consul.go`. -/
def WithDefaultPort (defaultPort : Int) : Opt :=
  fun o => { o with defaultPort := defaultPort }

/-- `WithRegistrationModifier` from `consul.go`: appends to the modifier
list. -/
def WithRegistrationModifier (modifier : Modifier) : Opt :=
  fun o =>
    { o with registrationModifiers := o.registrationModifiers ++ [modifier] }

/-- `defaultConfig` from `consul.go`: the zero-value `config` with
`WithDefaultPort(8100)` applied. -/
def defaultConfig : config :=
  WithDefaultPort 8100 { defaultPort := 0, registrationModifiers := [] }

/-- The modifier installed by `WithHTTPHealthCheck` in `consul.go`: set
`Check` to an HTTP check on `registration.Address` at the resolved
health port, interval 5s, timeout 3s. The `http.HandleFunc` call and
the webserver goroutine it also starts are side effects outside the
pure model. -/
def httpHealthCheckModifier (defaultPort : Int) : Modifier :=
  fun e registration =>
    (healthPort e defaultPort).map fun hp =>
      { registration with
        Check := some
          { HTTP := "http://" ++ registration.Address ++ ":" ++ toString hp
              ++ "/healthcheck"
            Interval := "5s"
            Timeout := "3s" } }

/-- `WithHTTPHealthCheck` from `consul.go`. -/
def WithHTTPHealthCheck (defaultPort : Int) : Opt :=
  WithRegistrationModifier (httpHealthCheckModifier defaultPort)

/-- The options-application loop of `RegisterConsulService`
(`for _, o := range options { o(cfg) }`). -/
def applyOptions : List Opt → config → config
  | [], c => c
  | o :: os, c => applyOptions os (o c)

/-- The modifier-application loop of `RegisterConsulService`
(`for _, m := range cfg.registrationModifiers { m(registration) }`); a
panic in one modifier aborts the rest. -/
def applyModifiers (e : Env) :
    List Modifier → AgentServiceRegistration →
      Except String AgentServiceRegistration
  | [], r => Except.ok r
  | m :: ms, r =>
    match m e r with
    | Except.ok r' => applyModifiers e ms r'
    | Except.error msg => Except.error msg

/-- `RegisterConsulService` from `consul.go`: apply the options to the
default config, build the base registration from the hostname, the
service name and the resolved service port, then run the registration
modifiers in order and return the final registration. `connect()` and
the final `ServiceRegister` call are network effects outside the model;
the returned value is what they submit. -/
def RegisterConsulService (e : Env) (hostname serviceName : String)
    (options : List Opt) : Except String AgentServiceRegistration :=
  let cfg := applyOptions options defaultConfig
  match port e cfg.defaultPort with
  | Except.error msg => Except.error msg
  | Except.ok p =>
    applyModifiers e cfg.registrationModifiers
      { ID := hostname
        Name := serviceName
        Address := hostname
        Port := p
        Check := none }

/-- `RegisterServiceWithConsul` from `consul.go` (deprecated): delegates
to `RegisterConsulService` with `WithHTTPHealthCheck(8101)`. -/
def RegisterServiceWithConsul (e : Env) (hostname serviceName : String) :
    Except String AgentServiceRegistration :=
  RegisterConsulService e hostname serviceName [WithHTTPHealthCheck 8101]

/-- `GetRandomServiceWithConsul` from `consul.go`, over the list that
`GetServicesWithConsul` returned (the consul query is a network effect)
and an abstract `rand.Intn`, which on a positive bound returns a value
strictly below it. -/
def GetRandomServiceWithConsul {α : Type}
    (randIntn : (n : Nat) → 0 < n → Fin n) (services : List α) :
    Option α :=
  if h : services.length = 0 then none
  else some (services.get (randIntn services.length (Nat.pos_of_ne_zero h)))

/-! ## Abstract option lists

`OptSpec` is the abstract syntax of the exported option constructors of
`consul.go`; it lets the theorems quantify over every option list a
caller can build from the public API while still computing the
resulting config compositionally. -/

/-- One application of an exported option constructor. -/
inductive OptSpec where
  | withDefaultPort (n : Int)
  | withRegistrationModifier (m : Modifier)
  | withHTTPHealthCheck (d : Int)

/-- The `Opt` value denoted by an `OptSpec`. -/
def OptSpec.interp : OptSpec → Opt
  | .withDefaultPort n => WithDefaultPort n
  | .withRegistrationModifier m => WithRegistrationModifier m
  | .withHTTPHealthCheck d => WithHTTPHealthCheck d

/-- The registration modifiers an option contributes. -/
def OptSpec.mods : OptSpec → List Modifier
  | .withDefaultPort _ => []
  | .withRegistrationModifier m => [m]
  | .withHTTPHealthCheck d => [httpHealthCheckModifier d]

/-- All modifiers contributed by an option list, in order. -/
def modsOf : List OptSpec → List Modifier
  | [] => []
  | o :: os => o.mods ++ modsOf os

/-- How one option updates the pending default port. -/
def stepDefault (d : Int) : OptSpec → Int
  | .withDefaultPort n => n
  | _ => d

/-- The default port left after an option list: the argument of the last
`WithDefaultPort`, or the initial 8100. -/
def lastDefaultPort (l : List OptSpec) : Int :=
  l.foldl stepDefault 8100

/-! ## Concrete fixtures used by the witnesses -/

/-- An environment with no variable set. -/
def envUnset : Env := fun _ => ""

/-- An environment setting only `PRODUCT_SERVICE_PORT`. -/
def envService (v : String) : Env :=
  fun x => if x = "PRODUCT_SERVICE_PORT" then v else ""

/-- An environment setting only `PRODUCT_HEALTH_PORT`. -/
def envHealth (v : String) : Env :=
  fun x => if x = "PRODUCT_HEALTH_PORT" then v else ""

/-- A modifier that does nothing. -/
def noopModifier : Modifier := fun _ r => Except.ok r

/-- A modifier that rewrites the registration's port to 1. -/
def setPortOneModifier : Modifier := fun _ r => Except.ok { r with Port := 1 }

/-- A `rand.Intn` realisation that always picks index 0. -/
def pickFirst : (n : Nat) → 0 < n → Fin n := fun _ h => ⟨0, h⟩

/-- Two `WithDefaultPort` options in a row, for the last-writer-wins
witness. -/
def twoDefaultPorts : List OptSpec :=
  [OptSpec.withDefaultPort 9000, OptSpec.withDefaultPort 9001]

/-- The registration built from `twoDefaultPorts` in an empty
environment. -/
def regTwoDefaults : AgentServiceRegistration :=
  { ID := "h", Name := "svc", Address := "h", Port := 9001, Check := none }

/-- A base registration for exercising the health-check modifier. -/
def regBase : AgentServiceRegistration :=
  { ID := "a", Name := "s", Address := "addr", Port := 1, Check := none }

/-- The registration built by the deprecated wrapper on host `node1` in
an empty environment. -/
def regNode1 : AgentServiceRegistration :=
  { ID := "node1", Name := "svc", Address := "node1", Port := 8100,
    Check := some
      { HTTP := "http://node1:8101/healthcheck"
        Interval := "5s"
        Timeout := "3s" } }

/-! ## Helper lemmas about the Go string primitives -/

theorem goTrimSpace_length_eq_zero_iff (s : String) :
    (goTrimSpace s).length = 0 ↔ ∀ c ∈ s.data, goIsSpace c = true := by
  unfold goTrimSpace
  have hlen : ∀ l : List Char, (String.mk l).length = l.length := fun _ => rfl
  rw [hlen, List.length_eq_zero, List.reverse_eq_nil_iff,
    List.dropWhile_eq_nil_iff]
  constructor
  · intro h c hc
    rw [← List.takeWhile_append_dropWhile goIsSpace s.data] at hc
    rcases List.mem_append.mp hc with h1 | h2
    · exact List.mem_takeWhile_imp h1
    · exact h c (List.mem_reverse.mpr h2)
  · intro h c hc
    exact h c ((List.dropWhile_sublist goIsSpace).mem (List.mem_reverse.mp hc))

theorem goIsSpace_not_digit {c : Char} (h : goIsSpace c = true) :
    goIsDigit c = false := by
  simp only [goIsSpace, Bool.or_eq_true, Bool.and_eq_true,
    decide_eq_true_eq] at h
  simp only [goIsDigit, Bool.and_eq_false_iff, decide_eq_false_iff_not]
  omega

theorem parseDigits_eq_none_of_not_digit {l : List Char} {c : Char}
    (hc : c ∈ l) (hd : goIsDigit c = false) : parseDigits l = none := by
  have hne : l ≠ [] := by intro h; subst h; cases hc
  have hall : l.all goIsDigit = false := by
    rw [Bool.eq_false_iff]
    intro hall
    have := List.all_eq_true.mp hall c hc
    rw [hd] at this
    exact Bool.noConfusion this
  simp [parseDigits, hne, hall]

theorem parseDigits_some {l : List Char} {m : Nat}
    (h : parseDigits l = some m) : l ≠ [] ∧ ∀ c ∈ l, goIsDigit c = true := by
  by_cases hne : l = []
  · subst hne; simp [parseDigits] at h
  · by_cases hall : l.all goIsDigit = true
    · exact ⟨hne, List.all_eq_true.mp hall⟩
    · simp [parseDigits, hne, hall] at h

theorem atoiAux_eq_none_of_space {l : List Char} {c : Char}
    (hc : c ∈ l) (hs : goIsSpace c = true) : atoiAux l = none := by
  cases l with
  | nil => rfl
  | cons a rest =>
    have hrest : c = a ∨ c ∈ rest := by
      cases hc with
      | head => exact Or.inl rfl
      | tail _ h => exact Or.inr h
    by_cases ha : a = '+'
    · subst ha
      have hcr : c ∈ rest := by
        rcases hrest with rfl | h
        · exact absurd hs (by decide)
        · exact h
      simp [atoiAux,
        parseDigits_eq_none_of_not_digit hcr (goIsSpace_not_digit hs)]
    · by_cases hb : a = '-'
      · subst hb
        have hcr : c ∈ rest := by
          rcases hrest with rfl | h
          · exact absurd hs (by decide)
          · exact h
        simp [atoiAux, ha,
          parseDigits_eq_none_of_not_digit hcr (goIsSpace_not_digit hs)]
      · simp [atoiAux, ha, hb,
          parseDigits_eq_none_of_not_digit hc (goIsSpace_not_digit hs)]

theorem atoiAux_some_digit {l : List Char} {n : Int}
    (h : atoiAux l = some n) : ∃ c ∈ l, goIsDigit c = true := by
  cases l with
  | nil => exact absurd h (by simp [atoiAux])
  | cons a rest =>
    simp only [atoiAux] at h
    by_cases ha : a = '+'
    · rw [if_pos ha] at h
      cases hp : parseDigits rest with
      | none => rw [hp] at h; exact Option.noConfusion h
      | some m =>
        obtain ⟨hne, hall⟩ := parseDigits_some hp
        obtain ⟨c, hc⟩ := List.exists_mem_of_ne_nil rest hne
        exact ⟨c, List.mem_cons_of_mem _ hc, hall c hc⟩
    · rw [if_neg ha] at h
      by_cases hb : a = '-'
      · rw [if_pos hb] at h
        cases hp : parseDigits rest with
        | none => rw [hp] at h; exact Option.noConfusion h
        | some m =>
          obtain ⟨hne, hall⟩ := parseDigits_some hp
          obtain ⟨c, hc⟩ := List.exists_mem_of_ne_nil rest hne
          exact ⟨c, List.mem_cons_of_mem _ hc, hall c hc⟩
      · rw [if_neg hb] at h
        cases hp : parseDigits (a :: rest) with
        | none => rw [hp] at h; exact Option.noConfusion h
        | some m =>
          obtain ⟨-, hall⟩ := parseDigits_some hp
          exact ⟨a, List.mem_cons_self _ _, hall a (List.mem_cons_self _ _)⟩

theorem atoi_some_not_blank {s : String} {n : Int} (h : atoi s = some n) :
    ¬(goTrimSpace s).length = 0 := by
  rw [goTrimSpace_length_eq_zero_iff]
  intro hall
  obtain ⟨c, hc, hd⟩ := atoiAux_some_digit h
  have := goIsSpace_not_digit (hall c hc)
  rw [hd] at this
  exact Bool.noConfusion this

theorem data_ne_nil_of_ne_empty {x : String} (hx : x ≠ "") :
    x.data ≠ [] := by
  intro hd
  apply hx
  have hmk : x = String.mk x.data := rfl
  rw [hmk, hd]

/-! ## Helper lemmas about the builder -/

theorem port_of_blank {e : Env} (d : Int)
    (h : (goTrimSpace (e "PRODUCT_SERVICE_PORT")).length = 0) :
    port e d = Except.ok d := by
  simp only [port]
  rw [if_pos h]

theorem applyOptions_interp (l : List OptSpec) (c : config) :
    applyOptions (l.map OptSpec.interp) c =
      { defaultPort := l.foldl stepDefault c.defaultPort
        registrationModifiers := c.registrationModifiers ++ modsOf l } := by
  induction l generalizing c with
  | nil => simp [applyOptions, modsOf]
  | cons o os ih =>
    cases o with
    | withDefaultPort n =>
      simp [applyOptions, OptSpec.interp, WithDefaultPort, ih, modsOf,
        OptSpec.mods, stepDefault]
    | withRegistrationModifier m =>
      simp [applyOptions, OptSpec.interp, WithRegistrationModifier, ih,
        modsOf, OptSpec.mods, stepDefault]
    | withHTTPHealthCheck d =>
      simp [applyOptions, OptSpec.interp, WithHTTPHealthCheck,
        WithRegistrationModifier, ih, modsOf, OptSpec.mods, stepDefault]

theorem registerConsulService_eq (e : Env) (hostname name : String)
    (l : List OptSpec) :
    RegisterConsulService e hostname name (l.map OptSpec.interp) =
      match port e (lastDefaultPort l) with
      | Except.error msg => Except.error msg
      | Except.ok p =>
        applyModifiers e (modsOf l)
          { ID := hostname, Name := name, Address := hostname, Port := p,
            Check := none } := by
  simp only [RegisterConsulService, applyOptions_interp, defaultConfig,
    WithDefaultPort, lastDefaultPort, List.nil_append]

theorem applyModifiers_preserves {e : Env}
    {P : AgentServiceRegistration → Prop} :
    ∀ ms : List Modifier,
      (∀ m ∈ ms, ∀ r r', m e r = Except.ok r' → P r → P r') →
      ∀ r r', applyModifiers e ms r = Except.ok r' → P r → P r'
  | [], _, r, r', h, hr => by
    simp only [applyModifiers] at h
    cases h
    exact hr
  | m :: ms, hP, r, r', h, hr => by
    simp only [applyModifiers] at h
    cases hm : m e r with
    | error msg =>
      rw [hm] at h
      exact Except.noConfusion h
    | ok r1 =>
      rw [hm] at h
      exact applyModifiers_preserves ms
        (fun m' hm' => hP m' (List.mem_cons_of_mem _ hm')) r1 r' h
        (hP m (List.mem_cons_self _ _) r r1 hm hr)

theorem httpHealthCheckModifier_preserves (e : Env) (d : Int)
    (r r' : AgentServiceRegistration)
    (h : httpHealthCheckModifier d e r = Except.ok r') :
    r'.ID = r.ID ∧ r'.Name = r.Name ∧ r'.Address = r.Address ∧
      r'.Port = r.Port := by
  simp only [httpHealthCheckModifier] at h
  cases hp : healthPort e d with
  | error msg =>
    rw [hp] at h
    exact Except.noConfusion h
  | ok hpv =>
    rw [hp] at h
    cases h
    exact ⟨rfl, rfl, rfl, rfl⟩

theorem modsOf_append (l1 l2 : List OptSpec) :
    modsOf (l1 ++ l2) = modsOf l1 ++ modsOf l2 := by
  induction l1 with
  | nil => rfl
  | cons o os ih => simp [modsOf, ih]

theorem lastDefaultPort_append_mod (l : List OptSpec) (m : Modifier) :
    lastDefaultPort (l ++ [OptSpec.withRegistrationModifier m]) =
      lastDefaultPort l := by
  simp [lastDefaultPort, List.foldl_append, stepDefault]

/-! ## Claims about the port resolvers -/

/-- C2: for every default `d` and environment, `port` (over
`PRODUCT_SERVICE_PORT`) and `healthPort` (over `PRODUCT_HEALTH_PORT`)
return `d` when the variable is blank, return the parsed base-10
integer when `strconv.Atoi` accepts it, and fail with a message naming
the offending variable when it is non-blank but rejected — by syntax or
by the platform-int range check. -/
theorem c2_port_resolvers_contract (e : Env) (d : Int) :
    ((goTrimSpace (e "PRODUCT_SERVICE_PORT")).length = 0 →
        port e d = Except.ok d) ∧
    (∀ n : Int, atoi (e "PRODUCT_SERVICE_PORT") = some n →
        port e d = Except.ok n) ∧
    ((goTrimSpace (e "PRODUCT_SERVICE_PORT")).length ≠ 0 →
        atoi (e "PRODUCT_SERVICE_PORT") = none →
        port e d = Except.error
          "invalid format for the environment variable PRODUCT_SERVICE_PORT") ∧
    ((goTrimSpace (e "PRODUCT_HEALTH_PORT")).length = 0 →
        healthPort e d = Except.ok d) ∧
    (∀ n : Int, atoi (e "PRODUCT_HEALTH_PORT") = some n →
        healthPort e d = Except.ok n) ∧
    ((goTrimSpace (e "PRODUCT_HEALTH_PORT")).length ≠ 0 →
        atoi (e "PRODUCT_HEALTH_PORT") = none →
        healthPort e d = Except.error
          "invalid format for the environment variable PRODUCT_HEALTH_PORT") := by
  refine ⟨?_, ?_, ?_, ?_, ?_, ?_⟩
  · intro h
    simp only [port]
    rw [if_pos h]
  · intro n hn
    simp only [port]
    rw [if_neg (atoi_some_not_blank hn), hn]
  · intro hb hn
    simp only [port]
    rw [if_neg hb, hn]
  · intro h
    simp only [healthPort]
    rw [if_pos h]
  · intro n hn
    simp only [healthPort]
    rw [if_neg (atoi_some_not_blank hn), hn]
  · intro hb hn
    simp only [healthPort]
    rw [if_neg hb, hn]

/-- Witness for C2: concrete unset, valid, malformed and out-of-range
environment values for both resolvers. -/
theorem c2_port_resolvers_contract_witness :
    port envUnset 8100 = Except.ok 8100 ∧
    port (envService "9005") 7 = Except.ok 9005 ∧
    port (envService "9005x") 7 = Except.error
      "invalid format for the environment variable PRODUCT_SERVICE_PORT" ∧
    healthPort envUnset 8101 = Except.ok 8101 ∧
    healthPort (envHealth "9106") 7 = Except.ok 9106 ∧
    healthPort (envHealth "no") 7 = Except.error
      "invalid format for the environment variable PRODUCT_HEALTH_PORT" ∧
    port (envService "99999999999999999999") 7 = Except.error
      "invalid format for the environment variable PRODUCT_SERVICE_PORT" :=
  ⟨(c2_port_resolvers_contract envUnset 8100).1 (by decide),
   (c2_port_resolvers_contract (envService "9005") 7).2.1 9005 (by decide),
   (c2_port_resolvers_contract (envService "9005x") 7).2.2.1 (by decide)
     (by decide),
   (c2_port_resolvers_contract envUnset 8101).2.2.2.1 (by decide),
   (c2_port_resolvers_contract (envHealth "9106") 7).2.2.2.2.1 9106
     (by decide),
   (c2_port_resolvers_contract (envHealth "no") 7).2.2.2.2.2 (by decide)
     (by decide),
   (c2_port_resolvers_contract (envService "99999999999999999999") 7).2.2.1
     (by decide) (by decide)⟩

/-- C8: the resolvers are independent: `port` depends only on the value
of `PRODUCT_SERVICE_PORT`, and `healthPort` only on
`PRODUCT_HEALTH_PORT`; two environments agreeing on the respective
variable give identical results, failures included. -/
theorem c8_resolver_independence (d : Int) (e1 e2 : Env) :
    (e1 "PRODUCT_SERVICE_PORT" = e2 "PRODUCT_SERVICE_PORT" →
        port e1 d = port e2 d) ∧
    (e1 "PRODUCT_HEALTH_PORT" = e2 "PRODUCT_HEALTH_PORT" →
        healthPort e1 d = healthPort e2 d) := by
  constructor
  · intro h
    simp only [port, h]
  · intro h
    simp only [healthPort, h]

/-- Witness for C8: environments differing only in the other resolver's
variable give identical results. -/
theorem c8_resolver_independence_witness :
    port (envHealth "1") 3 = port (envHealth "2x") 3 ∧
    healthPort (envService "1") 3 = healthPort (envService "2x") 3 :=
  ⟨(c8_resolver_independence 3 (envHealth "1") (envHealth "2x")).1 rfl,
   (c8_resolver_independence 3 (envService "1") (envService "2x")).2 rfl⟩

/-- C9: a whitespace-padded integer value (whitespace strings `a`, `b`,
not both empty, around a string `t` that `strconv.Atoi` accepts) is not
blank, yet fails the parse: both resolvers panic instead of returning
either the default or the padded number. -/
theorem c9_padded_integer_panics (a t b : String) (n : Int) (e : Env)
    (d : Int) (ht : atoi t = some n)
    (ha : ∀ c ∈ a.data, goIsSpace c = true)
    (hb : ∀ c ∈ b.data, goIsSpace c = true)
    (hne : a ≠ "" ∨ b ≠ "") :
    (e "PRODUCT_SERVICE_PORT" = a ++ t ++ b →
        port e d = Except.error
          "invalid format for the environment variable PRODUCT_SERVICE_PORT") ∧
    (e "PRODUCT_HEALTH_PORT" = a ++ t ++ b →
        healthPort e d = Except.error
          "invalid format for the environment variable PRODUCT_HEALTH_PORT") := by
  have hdata : (a ++ t ++ b).data = a.data ++ t.data ++ b.data := by
    rw [String.data_append, String.data_append]
  have hnotblank : (goTrimSpace (a ++ t ++ b)).length ≠ 0 := by
    intro hzero
    have hall := (goTrimSpace_length_eq_zero_iff _).mp hzero
    obtain ⟨c, hc, hd⟩ := atoiAux_some_digit ht
    have hmem : c ∈ (a ++ t ++ b).data := by
      rw [hdata]
      exact List.mem_append.mpr (Or.inl (List.mem_append.mpr (Or.inr hc)))
    have := goIsSpace_not_digit (hall c hmem)
    rw [hd] at this
    exact Bool.noConfusion this
  have hnone : atoi (a ++ t ++ b) = none := by
    obtain ⟨c, hc, hs⟩ :
        ∃ c ∈ (a ++ t ++ b).data, goIsSpace c = true := by
      rcases hne with hea | heb
      · obtain ⟨c, hc⟩ := List.exists_mem_of_ne_nil a.data
          (data_ne_nil_of_ne_empty hea)
        refine ⟨c, ?_, ha c hc⟩
        rw [hdata]
        exact List.mem_append.mpr (Or.inl (List.mem_append.mpr (Or.inl hc)))
      · obtain ⟨c, hc⟩ := List.exists_mem_of_ne_nil b.data
          (data_ne_nil_of_ne_empty heb)
        refine ⟨c, ?_, hb c hc⟩
        rw [hdata]
        exact List.mem_append.mpr (Or.inr hc)
    exact atoiAux_eq_none_of_space hc hs
  constructor
  · intro hv
    simp only [port, hv]
    rw [if_neg hnotblank, hnone]
  · intro hv
    simp only [healthPort, hv]
    rw [if_neg hnotblank, hnone]

/-- Witness for C9: the value `" 8100 "` makes `port` panic. -/
theorem c9_padded_integer_panics_witness :
    port (envService " 8100 ") 7 = Except.error
      "invalid format for the environment variable PRODUCT_SERVICE_PORT" :=
  (c9_padded_integer_panics " " "8100" " " 8100 (envService " 8100 ") 7
    (by decide) (by decide) (by decide) (Or.inl (by decide))).1 (by decide)

/-! ## Claims about the registration builder -/

/-- C7: the builder applies all supplied options to the config, then
builds the base descriptor (id and address from the hostname, the
service name, the resolved port) and folds it through the accumulated
modifier list in exactly the order the options supplied them;
`WithRegistrationModifier` appends to the modifier list and never
overwrites previously supplied modifiers. -/
theorem c7_modifiers_fold_in_order (e : Env) (hostname name : String)
    (l : List OptSpec) :
    (∀ (c : config) (m : Modifier),
        (WithRegistrationModifier m c).registrationModifiers =
          c.registrationModifiers ++ [m] ∧
        (WithRegistrationModifier m c).defaultPort = c.defaultPort) ∧
    RegisterConsulService e hostname name (l.map OptSpec.interp) =
      match port e (lastDefaultPort l) with
      | Except.error msg => Except.error msg
      | Except.ok p =>
        applyModifiers e (modsOf l)
          { ID := hostname, Name := name, Address := hostname, Port := p,
            Check := none } :=
  ⟨fun _ _ => ⟨rfl, rfl⟩, registerConsulService_eq e hostname name l⟩

/-- C3 counterexample: with a registration modifier that rewrites the
port, the built registration's port is 1, not the 8100 the claim
requires for an option list without `WithDefaultPort`. -/
theorem c3_counterexample_modifier_rewrites_port :
    (RegisterConsulService envUnset "h" "svc"
        [WithRegistrationModifier setPortOneModifier]).map
      AgentServiceRegistration.Port = Except.ok 1 ∧ (1 : Int) ≠ 8100 :=
  ⟨rfl, by decide⟩

/-- C3 amended: when `PRODUCT_SERVICE_PORT` is blank and no supplied
modifier rewrites the port field, the built registration's port equals
the argument of the last `WithDefaultPort` option (8100 when none is
supplied). -/
theorem c3_last_default_port_wins (e : Env) (hostname name : String)
    (l : List OptSpec)
    (hblank : (goTrimSpace (e "PRODUCT_SERVICE_PORT")).length = 0)
    (hpres : ∀ m ∈ modsOf l, ∀ r r',
        m e r = Except.ok r' → r'.Port = r.Port)
    (r : AgentServiceRegistration)
    (hr : RegisterConsulService e hostname name (l.map OptSpec.interp) =
        Except.ok r) :
    r.Port = lastDefaultPort l := by
  rw [registerConsulService_eq, port_of_blank (lastDefaultPort l) hblank]
    at hr
  exact applyModifiers_preserves
    (P := fun x => x.Port = lastDefaultPort l) (modsOf l)
    (fun m hm r0 r1 h1 h0 => (hpres m hm r0 r1 h1).trans h0)
    _ r hr rfl

/-- Witness for the amended C3: two `WithDefaultPort` options, the last
one (9001) wins. -/
theorem c3_last_default_port_wins_witness :
    regTwoDefaults.Port = lastDefaultPort twoDefaultPorts :=
  c3_last_default_port_wins envUnset "h" "svc" twoDefaultPorts (by decide)
    (fun m hm => absurd hm (List.not_mem_nil m)) regTwoDefaults rfl

/-- C6: when no supplied modifier rewrites the id or address fields, the
built registration's id and address both equal the hostname (the value
`Hostname()` returned at build time) and hence each other. -/
theorem c6_id_address_from_hostname (e : Env) (hostname name : String)
    (l : List OptSpec)
    (hpres : ∀ m ∈ modsOf l, ∀ r r', m e r = Except.ok r' →
        r'.ID = r.ID ∧ r'.Address = r.Address)
    (r : AgentServiceRegistration)
    (hr : RegisterConsulService e hostname name (l.map OptSpec.interp) =
        Except.ok r) :
    r.ID = hostname ∧ r.Address = hostname ∧ r.ID = r.Address := by
  rw [registerConsulService_eq] at hr
  cases hp : port e (lastDefaultPort l) with
  | error msg =>
    rw [hp] at hr
    exact Except.noConfusion hr
  | ok p =>
    rw [hp] at hr
    have hfin := applyModifiers_preserves
      (P := fun x => x.ID = hostname ∧ x.Address = hostname) (modsOf l)
      (fun m hm r0 r1 h1 h0 =>
        ⟨((hpres m hm r0 r1 h1).1).trans h0.1,
         ((hpres m hm r0 r1 h1).2).trans h0.2⟩)
      _ r hr ⟨rfl, rfl⟩
    exact ⟨hfin.1, hfin.2, hfin.1.trans hfin.2.symm⟩

/-- Witness for C6: the health-check option does not touch id or
address, so both equal the hostname `node1`. -/
theorem c6_id_address_from_hostname_witness :
    regNode1.ID = "node1" ∧ regNode1.Address = "node1" ∧
      regNode1.ID = regNode1.Address :=
  c6_id_address_from_hostname envUnset "node1" "svc"
    [OptSpec.withHTTPHealthCheck 8101]
    (fun m hm r r' h => by
      have hm' : m = httpHealthCheckModifier 8101 := by
        simpa [modsOf, OptSpec.mods] using hm
      subst hm'
      have hp := httpHealthCheckModifier_preserves envUnset 8101 r r' h
      exact ⟨hp.1, hp.2.2.1⟩)
    regNode1 rfl

/-- C1 counterexample: with zero options the builder produces a
registration whose `Check` is nil — no automatic
`WithHTTPHealthCheck(8101)` default is applied. -/
theorem c1_counterexample_zero_options_check_nil :
    (RegisterConsulService envUnset "h" "svc" []).map
      AgentServiceRegistration.Check = Except.ok none :=
  rfl

/-- C1 amended: `RegisterConsulService` never installs an automatic
health check: if the supplied options leave the modifier list empty the
built registration's `Check` is nil, and a no-op
`WithRegistrationModifier` likewise leaves it nil; the 8101 default
health check exists only through the deprecated
`RegisterServiceWithConsul` wrapper. -/
theorem c1_no_auto_healthcheck (e : Env) (hostname name : String)
    (l : List OptSpec) (hmods : modsOf l = []) (p : Int)
    (hp : port e (lastDefaultPort l) = Except.ok p) :
    (RegisterConsulService e hostname name (l.map OptSpec.interp)).map
        AgentServiceRegistration.Check = Except.ok none ∧
    (RegisterConsulService e hostname name
        ((l ++ [OptSpec.withRegistrationModifier noopModifier]).map
          OptSpec.interp)).map
        AgentServiceRegistration.Check = Except.ok none := by
  constructor
  · rw [registerConsulService_eq, hp, hmods]
    rfl
  · rw [registerConsulService_eq, lastDefaultPort_append_mod, hp,
      modsOf_append, hmods]
    rfl

/-- Witness for the amended C1: zero options, and a single no-op
modifier, both leave `Check` nil in an empty environment. -/
theorem c1_no_auto_healthcheck_witness :
    (RegisterConsulService envUnset "h" "svc" []).map
        AgentServiceRegistration.Check = Except.ok none ∧
    (RegisterConsulService envUnset "h" "svc"
        [WithRegistrationModifier noopModifier]).map
        AgentServiceRegistration.Check = Except.ok none :=
  c1_no_auto_healthcheck envUnset "h" "svc" [] rfl 8100 rfl

/-- C5: the modifier produced by `WithHTTPHealthCheck d` sets exactly
the `Check` sub-record
`{HTTP := "http://<address>:<healthPort>/healthcheck", Interval := "5s",
Timeout := "3s"}`, where the health port is resolved over
`PRODUCT_HEALTH_PORT` with default `d` and the address is the
descriptor's current address when the modifier runs. -/
theorem c5_http_health_check_modifier (e : Env) (d hp : Int)
    (r : AgentServiceRegistration)
    (h : healthPort e d = Except.ok hp) :
    (∀ c : config, WithHTTPHealthCheck d c =
        WithRegistrationModifier (httpHealthCheckModifier d) c) ∧
    httpHealthCheckModifier d e r = Except.ok
      { r with
        Check := some
          { HTTP := "http://" ++ r.Address ++ ":" ++ toString hp
              ++ "/healthcheck"
            Interval := "5s"
            Timeout := "3s" } } := by
  refine ⟨fun _ => rfl, ?_⟩
  simp only [httpHealthCheckModifier, h]
  rfl

/-- Witness for C5: on a base registration with address `addr` and
`PRODUCT_HEALTH_PORT=9106`, the check URL is
`http://addr:9106/healthcheck`. -/
theorem c5_http_health_check_modifier_witness :
    httpHealthCheckModifier 8101 (envHealth "9106") regBase = Except.ok
      { regBase with
        Check := some
          { HTTP := "http://" ++ regBase.Address ++ ":"
              ++ toString (9106 : Int) ++ "/healthcheck"
            Interval := "5s"
            Timeout := "3s" } } :=
  (c5_http_health_check_modifier (envHealth "9106") 8101 9106 regBase
    rfl).2

/-- C10: the deprecated `RegisterServiceWithConsul name` builds exactly
what `RegisterConsulService name (WithHTTPHealthCheck 8101)` builds,
and whenever it succeeds the registration carries the HTTP health
check on the hostname at the resolved health port — regardless of the
environment. -/
theorem c10_deprecated_wrapper_equiv (e : Env) (hostname name : String) :
    RegisterServiceWithConsul e hostname name =
      RegisterConsulService e hostname name [WithHTTPHealthCheck 8101] ∧
    ∀ r, RegisterServiceWithConsul e hostname name = Except.ok r →
      ∃ hp, healthPort e 8101 = Except.ok hp ∧
        r.Check = some
          { HTTP := "http://" ++ hostname ++ ":" ++ toString hp
              ++ "/healthcheck"
            Interval := "5s"
            Timeout := "3s" } := by
  refine ⟨rfl, ?_⟩
  intro r hr
  have hr2 : RegisterConsulService e hostname name
      ([OptSpec.withHTTPHealthCheck 8101].map OptSpec.interp) =
        Except.ok r := hr
  rw [registerConsulService_eq] at hr2
  cases hp : port e (lastDefaultPort [OptSpec.withHTTPHealthCheck 8101])
    with
  | error msg =>
    rw [hp] at hr2
    exact Except.noConfusion hr2
  | ok p =>
    rw [hp] at hr2
    simp only [modsOf, OptSpec.mods, applyModifiers,
      httpHealthCheckModifier] at hr2
    cases hh : healthPort e 8101 with
    | error msg =>
      rw [hh] at hr2
      exact Except.noConfusion hr2
    | ok hpv =>
      rw [hh] at hr2
      simp only [Except.map, applyModifiers] at hr2
      cases hr2
      exact ⟨hpv, rfl, rfl⟩

/-- Witness for C10: in an empty environment the wrapper registers
`node1` with the 8101 health check. -/
theorem c10_deprecated_wrapper_equiv_witness :
    ∃ hp, healthPort envUnset 8101 = Except.ok hp ∧
      regNode1.Check = some
        { HTTP := "http://" ++ "node1" ++ ":" ++ toString hp
            ++ "/healthcheck"
          Interval := "5s"
          Timeout := "3s" } :=
  (c10_deprecated_wrapper_equiv envUnset "node1" "svc").2 regNode1 rfl

/-- C4: on a non-empty discovery result the random query returns one of
the returned entries, never fabricating one or indexing out of bounds;
on an empty result it returns `none` without error. -/
theorem c4_random_selection {α : Type}
    (randIntn : (n : Nat) → 0 < n → Fin n) (services : List α) :
    (services.length = 0 →
        GetRandomServiceWithConsul randIntn services = none) ∧
    (0 < services.length →
        ∃ x ∈ services,
          GetRandomServiceWithConsul randIntn services = some x) := by
  constructor
  · intro h
    simp [GetRandomServiceWithConsul, h]
  · intro h
    have hne : ¬services.length = 0 := Nat.pos_iff_ne_zero.mp h
    refine ⟨services.get (randIntn services.length
      (Nat.pos_of_ne_zero hne)), ?_, ?_⟩
    · exact List.get_mem services _ _
    · simp [GetRandomServiceWithConsul, hne]

/-- Witness for C4: the empty list gives `none`; on `[10, 20, 30]` the
result is a member. -/
theorem c4_random_selection_witness :
    GetRandomServiceWithConsul pickFirst ([] : List Nat) = none ∧
    ∃ x ∈ [10, 20, 30],
      GetRandomServiceWithConsul pickFirst [10, 20, 30] = some x :=
  ⟨(c4_random_selection pickFirst ([] : List Nat)).1 rfl,
   (c4_random_selection pickFirst [10, 20, 30]).2 (by decide)⟩

end Common
